import Mathlib

/-!
Verification of the response-decoding layer of `src/responses/listing.rs`.

The Rust source declares plain structs with `#[derive(Deserialize)]`; their
decode semantics are those of the serde-derived deserializers over a
`serde_json::Value` tree.  This file shallowly embeds that semantics:

* `Json` models a `serde_json::Value` tree (numbers as integers; the claims
  under study involve only integral numbers).
* `DErr` models the observable data-error shapes of `serde_json` when
  deserializing from a `Value`: missing required field, wrong JSON type,
  out-of-range number, wrong sequence length.  `serde_json` propagates the
  error of a failing element of a `Vec` unchanged; it has no error variant
  wrapping a child error with its index.
* Each struct gets a decode function translated field by field from the
  Rust declaration, in declaration order, mirroring the serde derive:
  required fields error when the key is absent; `Option` fields decode to
  `none` on an absent key or a JSON `null`; unknown keys are ignored
  (no `deny_unknown_fields`); a `Value`-typed field accepts any JSON value.
-/

set_option maxHeartbeats 1000000

namespace Rawr

/-- A JSON value as held by a `serde_json::Value` tree.  Numbers are
modelled as integers (the fields and fixtures in question are integral). -/
inductive Json where
  | null : Json
  | bool : Bool → Json
  | num : Int → Json
  | str : String → Json
  | arr : List Json → Json
  | obj : List (String × Json) → Json

/-- Observable decode-error shapes of `serde_json` when deserializing from a
`Value`: a missing required field, a value of the wrong JSON type, a number
outside the target integer range, a sequence of the wrong length.  There is
no variant pairing a child error with an index: `serde_json` propagates a
failing `Vec` element's error unchanged. -/
inductive DErr where
  | missingField : String → DErr
  | invalidType : String → Json → DErr
  | invalidValue : String → Json → DErr
  | invalidLength : Nat → Nat → DErr

/-- Sequencing of fallible decode steps (the `?` operator / serde visitor
short-circuiting). -/
def andThen (x : Except DErr α) (f : α → Except DErr β) : Except DErr β :=
  match x with
  | .error e => .error e
  | .ok a => f a

/-- Whether a decode result is a success. -/
def isOkE (x : Except DErr α) : Bool :=
  match x with
  | .ok _ => true
  | .error _ => false

/-- Look up a key in a JSON object's field list (serde_json object maps hold
each key at most once; the first occurrence is taken). -/
def getField (o : List (String × Json)) (k : String) : Option Json :=
  match o with
  | [] => none
  | (k₂, v) :: rest => if k₂ = k then some v else getField rest k

/-- Decode a required struct field: absence of the key is an error, as for a
non-`Option` serde field. -/
def reqField (o : List (String × Json)) (k : String)
    (dec : Json → Except DErr α) : Except DErr α :=
  match getField o k with
  | none => .error (.missingField k)
  | some v => dec v

/-- Decode an `Option` struct field: serde's derive yields `None` both when
the key is absent and when its value is JSON `null`; any other value is
decoded by the inner type. -/
def optField (o : List (String × Json)) (k : String)
    (dec : Json → Except DErr α) : Except DErr (Option α) :=
  match getField o k with
  | none => .ok none
  | some .null => .ok none
  | some v => andThen (dec v) fun a => .ok (some a)

/-- Decode a `String` field. -/
def decodeString : Json → Except DErr String
  | .str s => .ok s
  | v => .error (.invalidType "a string" v)

/-- Decode a `bool` field. -/
def decodeBool : Json → Except DErr Bool
  | .bool b => .ok b
  | v => .error (.invalidType "a boolean" v)

/-- Decode a `u64` field: a number in `[0, 2^64)`; negative numbers are
rejected, as serde rejects a negative integer for an unsigned target. -/
def decodeU64 : Json → Except DErr Nat
  | .num n =>
      if 0 ≤ n ∧ n < 18446744073709551616 then .ok n.toNat
      else .error (.invalidValue "u64" (.num n))
  | v => .error (.invalidType "u64" v)

/-- Decode an `i64` field: a number in `[-2^63, 2^63)`. -/
def decodeI64 : Json → Except DErr Int
  | .num n =>
      if -9223372036854775808 ≤ n ∧ n < 9223372036854775808 then .ok n
      else .error (.invalidValue "i64" (.num n))
  | v => .error (.invalidType "i64" v)

/-- Decode a `serde_json::Value` field: `Value`'s own `Deserialize` accepts
any JSON value unchanged and never fails. -/
def decodeValue (j : Json) : Except DErr Json :=
  .ok j

/-- Decode the elements of a JSON array in order, as serde's sequence
visitor does for `Vec<T>`: stop at the first failing element and propagate
its error unchanged. -/
def mapDecode (f : Json → Except DErr α) : List Json → Except DErr (List α)
  | [] => .ok []
  | x :: xs =>
      andThen (f x) fun y =>
      andThen (mapDecode f xs) fun ys =>
      .ok (y :: ys)

/-- Decode a `Vec<T>` field: the value must be a JSON array. -/
def decodeVec (dec : Json → Except DErr α) : Json → Except DErr (List α)
  | .arr elems => mapDecode dec elems
  | v => .error (.invalidType "a sequence" v)

/-- Modelled from the spec: `BasicThing` (the `{kind, data}` envelope) is
declared in `responses/mod.rs`, which is not under `src/`; per spec §3 and
§4.2 it has a required string discriminator `kind` and a required payload
`data` of the caller-chosen type. -/
structure BasicThing (T : Type) where
  kind : String
  data : T

/-- Modelled from the spec: decode of `BasicThing` — both `kind` and `data`
must be present; `data` is decoded by the payload type's own decoder. -/
def decodeBasicThing (decT : Json → Except DErr T) : Json → Except DErr (BasicThing T)
  | .obj o =>
      andThen (reqField o "kind" decodeString) fun kind =>
      andThen (reqField o "data" decT) fun data =>
      .ok ⟨kind, data⟩
  | v => .error (.invalidType "struct BasicThing" v)

/-- `ListingData<T>` of `src/responses/listing.rs` lines 47–55. -/
structure ListingData (T : Type) where
  modhash : Option String
  before : Option String
  after : Option String
  children : List (BasicThing T)

/-- Serde-derived decode of `ListingData<T>`: `modhash`, `before`, `after`
are `Option<String>`; `children` is a required `Vec<BasicThing<T>>`. -/
def decodeListingData (decT : Json → Except DErr T) : Json → Except DErr (ListingData T)
  | .obj o =>
      andThen (optField o "modhash" decodeString) fun modhash =>
      andThen (optField o "before" decodeString) fun before =>
      andThen (optField o "after" decodeString) fun after =>
      andThen (reqField o "children" (decodeVec (decodeBasicThing decT))) fun children =>
      .ok ⟨modhash, before, after, children⟩
  | v => .error (.invalidType "struct ListingData" v)

/-- `SubredditAboutData` of `src/responses/listing.rs` lines 16–44. -/
structure SubredditAboutData where
  subscribers : Nat
  accounts_active : Nat
  subreddit_type : String
  title : String
  url : String
  wiki_enabled : Bool
  over18 : Bool
  public_description : String
  public_description_html : String
  public_traffic : Bool
  name : String
  id : String
  display_name : String
  description : String
  description_html : String
  created : Int
  created_utc : Int
  quarantine : Bool
  submission_type : String
  lang : String
  submit_text : String
  submit_text_html : String
  submit_text_label : Option String
  submit_link_label : Option String
  comment_score_hide_mins : Nat

/-- Serde-derived decode of `SubredditAboutData`, field by field in
declaration order. -/
def decodeSubredditAboutData : Json → Except DErr SubredditAboutData
  | .obj o =>
      andThen (reqField o "subscribers" decodeU64) fun subscribers =>
      andThen (reqField o "accounts_active" decodeU64) fun accounts_active =>
      andThen (reqField o "subreddit_type" decodeString) fun subreddit_type =>
      andThen (reqField o "title" decodeString) fun title =>
      andThen (reqField o "url" decodeString) fun url =>
      andThen (reqField o "wiki_enabled" decodeBool) fun wiki_enabled =>
      andThen (reqField o "over18" decodeBool) fun over18 =>
      andThen (reqField o "public_description" decodeString) fun public_description =>
      andThen (reqField o "public_description_html" decodeString) fun public_description_html =>
      andThen (reqField o "public_traffic" decodeBool) fun public_traffic =>
      andThen (reqField o "name" decodeString) fun name =>
      andThen (reqField o "id" decodeString) fun id =>
      andThen (reqField o "display_name" decodeString) fun display_name =>
      andThen (reqField o "description" decodeString) fun description =>
      andThen (reqField o "description_html" decodeString) fun description_html =>
      andThen (reqField o "created" decodeI64) fun created =>
      andThen (reqField o "created_utc" decodeI64) fun created_utc =>
      andThen (reqField o "quarantine" decodeBool) fun quarantine =>
      andThen (reqField o "submission_type" decodeString) fun submission_type =>
      andThen (reqField o "lang" decodeString) fun lang =>
      andThen (reqField o "submit_text" decodeString) fun submit_text =>
      andThen (reqField o "submit_text_html" decodeString) fun submit_text_html =>
      andThen (optField o "submit_text_label" decodeString) fun submit_text_label =>
      andThen (optField o "submit_link_label" decodeString) fun submit_link_label =>
      andThen (reqField o "comment_score_hide_mins" decodeU64) fun comment_score_hide_mins =>
      .ok ⟨subscribers, accounts_active, subreddit_type, title, url, wiki_enabled,
        over18, public_description, public_description_html, public_traffic, name,
        id, display_name, description, description_html, created, created_utc,
        quarantine, submission_type, lang, submit_text, submit_text_html,
        submit_text_label, submit_link_label, comment_score_hide_mins⟩
  | v => .error (.invalidType "struct SubredditAboutData" v)

/-- `Submission` of `src/responses/listing.rs` lines 57–191.  The `edited`
field is declared in the source as a raw `serde_json::Value` (line 128). -/
structure Submission where
  domain : String
  banned_by : Option String
  subreddit : String
  selftext_html : Option String
  selftext : String
  likes : Option Bool
  suggested_sort : Option String
  link_flair_text : Option String
  id : String
  gilded : Nat
  archived : Bool
  clicked : Bool
  author : String
  score : Int
  approved_by : Option String
  over_18 : Bool
  hidden : Bool
  num_comments : Nat
  thumbnail : String
  subreddit_id : String
  hide_score : Bool
  edited : Json
  link_flair_css_class : Option String
  author_flair_css_class : Option String
  downs : Int
  ups : Int
  saved : Bool
  removal_reason : Option String
  stickied : Bool
  is_self : Bool
  permalink : String
  locked : Bool
  name : String
  created : Int
  url : Option String
  author_flair_text : Option String
  quarantine : Bool
  title : String
  created_utc : Int
  distinguished : Option String
  visited : Bool
  num_reports : Option Nat

/-- Serde-derived decode of `Submission`, field by field in declaration
order.  The `edited` field uses `decodeValue`: `Value::deserialize` accepts
any JSON value and never fails. -/
def decodeSubmission : Json → Except DErr Submission
  | .obj o =>
      andThen (reqField o "domain" decodeString) fun domain =>
      andThen (optField o "banned_by" decodeString) fun banned_by =>
      andThen (reqField o "subreddit" decodeString) fun subreddit =>
      andThen (optField o "selftext_html" decodeString) fun selftext_html =>
      andThen (reqField o "selftext" decodeString) fun selftext =>
      andThen (optField o "likes" decodeBool) fun likes =>
      andThen (optField o "suggested_sort" decodeString) fun suggested_sort =>
      andThen (optField o "link_flair_text" decodeString) fun link_flair_text =>
      andThen (reqField o "id" decodeString) fun id =>
      andThen (reqField o "gilded" decodeU64) fun gilded =>
      andThen (reqField o "archived" decodeBool) fun archived =>
      andThen (reqField o "clicked" decodeBool) fun clicked =>
      andThen (reqField o "author" decodeString) fun author =>
      andThen (reqField o "score" decodeI64) fun score =>
      andThen (optField o "approved_by" decodeString) fun approved_by =>
      andThen (reqField o "over_18" decodeBool) fun over_18 =>
      andThen (reqField o "hidden" decodeBool) fun hidden =>
      andThen (reqField o "num_comments" decodeU64) fun num_comments =>
      andThen (reqField o "thumbnail" decodeString) fun thumbnail =>
      andThen (reqField o "subreddit_id" decodeString) fun subreddit_id =>
      andThen (reqField o "hide_score" decodeBool) fun hide_score =>
      andThen (reqField o "edited" decodeValue) fun edited =>
      andThen (optField o "link_flair_css_class" decodeString) fun link_flair_css_class =>
      andThen (optField o "author_flair_css_class" decodeString) fun author_flair_css_class =>
      andThen (reqField o "downs" decodeI64) fun downs =>
      andThen (reqField o "ups" decodeI64) fun ups =>
      andThen (reqField o "saved" decodeBool) fun saved =>
      andThen (optField o "removal_reason" decodeString) fun removal_reason =>
      andThen (reqField o "stickied" decodeBool) fun stickied =>
      andThen (reqField o "is_self" decodeBool) fun is_self =>
      andThen (reqField o "permalink" decodeString) fun permalink =>
      andThen (reqField o "locked" decodeBool) fun locked =>
      andThen (reqField o "name" decodeString) fun name =>
      andThen (reqField o "created" decodeI64) fun created =>
      andThen (optField o "url" decodeString) fun url =>
      andThen (optField o "author_flair_text" decodeString) fun author_flair_text =>
      andThen (reqField o "quarantine" decodeBool) fun quarantine =>
      andThen (reqField o "title" decodeString) fun title =>
      andThen (reqField o "created_utc" decodeI64) fun created_utc =>
      andThen (optField o "distinguished" decodeString) fun distinguished =>
      andThen (reqField o "visited" decodeBool) fun visited =>
      andThen (optField o "num_reports" decodeU64) fun num_reports =>
      .ok ⟨domain, banned_by, subreddit, selftext_html, selftext, likes,
        suggested_sort, link_flair_text, id, gilded, archived, clicked, author,
        score, approved_by, over_18, hidden, num_comments, thumbnail,
        subreddit_id, hide_score, edited, link_flair_css_class,
        author_flair_css_class, downs, ups, saved, removal_reason, stickied,
        is_self, permalink, locked, name, created, url, author_flair_text,
        quarantine, title, created_utc, distinguished, visited, num_reports⟩
  | v => .error (.invalidType "struct Submission" v)

/-- `Listing` of `src/responses/listing.rs` line 7:
`BasicThing<ListingData<Submission>>`. -/
def Listing : Type := BasicThing (ListingData Submission)

/-- Decode of `Listing`. -/
def decodeListing : Json → Except DErr Listing :=
  decodeBasicThing (decodeListingData decodeSubmission)

/-- Modelled from the spec: `CommentListing` is declared in
`responses/comment.rs`, which is not under `src/`; per spec §2–§3 it is a
listing of comment leaf payloads inside an envelope.  The spec does not fix
the comment leaf schema, so the leaf payload is taken to be a raw JSON
value. -/
def CommentListing : Type := BasicThing (ListingData Json)

/-- Modelled from the spec: decode of the comment listing — an envelope
holding listing data whose children carry the (unspecified) comment
payload. -/
def decodeCommentListing : Json → Except DErr CommentListing :=
  decodeBasicThing (decodeListingData decodeValue)

/-- `CommentResponse` of `src/responses/listing.rs` line 11:
`(Listing, CommentListing)`.  Serde decodes a two-tuple from a JSON array
of exactly two elements; arrays of any other length and non-arrays fail. -/
def decodeCommentResponse : Json → Except DErr (Listing × CommentListing)
  | .arr [a, b] =>
      andThen (decodeListing a) fun x =>
      andThen (decodeCommentListing b) fun y =>
      .ok (x, y)
  | .arr l => .error (.invalidLength 2 l.length)
  | v => .error (.invalidType "a tuple of size 2" v)

/-- The declared keys of `ListingData`. -/
def listingKeys : List String := ["modhash", "before", "after", "children"]

/-- The declared keys of `SubredditAboutData`. -/
def aboutKeys : List String :=
  ["subscribers", "accounts_active", "subreddit_type", "title", "url",
   "wiki_enabled", "over18", "public_description", "public_description_html",
   "public_traffic", "name", "id", "display_name", "description",
   "description_html", "created", "created_utc", "quarantine",
   "submission_type", "lang", "submit_text", "submit_text_html",
   "submit_text_label", "submit_link_label", "comment_score_hide_mins"]

/-- The declared keys of `Submission`. -/
def submissionKeys : List String :=
  ["domain", "banned_by", "subreddit", "selftext_html", "selftext", "likes",
   "suggested_sort", "link_flair_text", "id", "gilded", "archived", "clicked",
   "author", "score", "approved_by", "over_18", "hidden", "num_comments",
   "thumbnail", "subreddit_id", "hide_score", "edited", "link_flair_css_class",
   "author_flair_css_class", "downs", "ups", "saved", "removal_reason",
   "stickied", "is_self", "permalink", "locked", "name", "created", "url",
   "author_flair_text", "quarantine", "title", "created_utc", "distinguished",
   "visited", "num_reports"]

/-- Keep only the keys of an object that are declared in the target schema:
the object with all unknown keys removed. -/
def filterKeys (ks : List String) (o : List (String × Json)) : List (String × Json) :=
  o.filter fun p => decide (p.1 ∈ ks)

/-- The shape the spec requires of the normalized `edited` result: the
boolean `false` (`NotEdited`) or a number (`EditedAt` with its timestamp);
every other shape is outside the spec's two-variant result. -/
def editedSpecShape : Json → Bool
  | .bool false => true
  | .num _ => true
  | _ => false

/-- A complete submission JSON object, well-formed in every field, with the
value at the `edited` key left as a parameter. -/
def subFieldsE (v : Json) : List (String × Json) :=
  [("domain", .str "self.test"), ("banned_by", .null), ("subreddit", .str "test"),
   ("selftext_html", .null), ("selftext", .str "body"), ("likes", .null),
   ("suggested_sort", .null), ("link_flair_text", .null), ("id", .str "abc12"),
   ("gilded", .num 0), ("archived", .bool false), ("clicked", .bool false),
   ("author", .str "someone"), ("score", .num 10), ("approved_by", .null),
   ("over_18", .bool false), ("hidden", .bool false), ("num_comments", .num 3),
   ("thumbnail", .str "self"), ("subreddit_id", .str "t5_abcde"),
   ("hide_score", .bool false), ("edited", v), ("link_flair_css_class", .null),
   ("author_flair_css_class", .null), ("downs", .num 2), ("ups", .num 12),
   ("saved", .bool false), ("removal_reason", .null), ("stickied", .bool false),
   ("is_self", .bool true), ("permalink", .str "/r/test/comments/abc12"),
   ("locked", .bool false), ("name", .str "t3_abc12"), ("created", .num 1500000000),
   ("url", .null), ("author_flair_text", .null), ("quarantine", .bool false),
   ("title", .str "a title"), ("created_utc", .num 1500000000),
   ("distinguished", .null), ("visited", .bool false), ("num_reports", .null)]

/-- The `Submission` value that `subFieldsE v` decodes to. -/
def subValE (v : Json) : Submission :=
  ⟨"self.test", none, "test", none, "body", none, none, none, "abc12", 0,
   false, false, "someone", 10, none, false, false, 3, "self", "t5_abcde",
   false, v, none, none, 2, 12, false, none, false, true,
   "/r/test/comments/abc12", false, "t3_abc12", 1500000000, none, none, false,
   "a title", 1500000000, none, false, none⟩

/-- A child envelope that decodes as `BasicThing<Submission>`. -/
def goodChild : Json :=
  .obj [("kind", .str "t3"), ("data", .obj (subFieldsE (.bool false)))]

/-- A child envelope whose `data` is not an object, so its `Submission`
decode fails. -/
def badChild : Json :=
  .obj [("kind", .str "t3"), ("data", .num 5)]

/-- The error that decoding `badChild` produces. -/
def badChildErr : DErr := .invalidType "struct Submission" (.num 5)

/-- Listing-data object whose third child (index 2) is malformed. -/
def listingBadAt2 : List (String × Json) :=
  [("children", .arr [goodChild, goodChild, badChild])]

/-- Listing-data object whose second child (index 1) is malformed. -/
def listingBadAt1 : List (String × Json) :=
  [("children", .arr [goodChild, badChild, goodChild])]

/-- A second well-formed child envelope, distinguishable from `goodChild`. -/
def goodChild₂ : Json :=
  .obj [("kind", .str "t3"), ("data", .obj (subFieldsE (.num 1500000001)))]

/-- The children array of `listingTwo`, in server order. -/
def listingTwoChildren : List Json := [goodChild, goodChild₂]

/-- A well-formed listing-data object with two children, in order. -/
def listingTwo : List (String × Json) :=
  [("modhash", .null), ("before", .null), ("after", .str "t3_abc12"),
   ("children", .arr listingTwoChildren)]

/-- The value `listingTwo` decodes to. -/
def listingTwoVal : ListingData Submission :=
  ⟨none, none, some "t3_abc12",
   [⟨"t3", subValE (.bool false)⟩, ⟨"t3", subValE (.num 1500000001)⟩]⟩

/-- A well-formed subreddit-about object (`subscribers` = 42, negative
creation timestamps to exercise the signed fields). -/
def aboutFields : List (String × Json) :=
  [("subscribers", .num 42), ("accounts_active", .num 7),
   ("subreddit_type", .str "public"), ("title", .str "Test"),
   ("url", .str "/r/test/"), ("wiki_enabled", .bool true),
   ("over18", .bool false), ("public_description", .str "desc"),
   ("public_description_html", .str "<p>desc</p>"),
   ("public_traffic", .bool false), ("name", .str "t5_abcde"),
   ("id", .str "abcde"), ("display_name", .str "test"),
   ("description", .str "sidebar"), ("description_html", .str "<p>sidebar</p>"),
   ("created", .num (-234)), ("created_utc", .num (-262)),
   ("quarantine", .bool false), ("submission_type", .str "any"),
   ("lang", .str "en"), ("submit_text", .str ""),
   ("submit_text_html", .str ""), ("submit_text_label", .null),
   ("submit_link_label", .null), ("comment_score_hide_mins", .num 0)]

/-- The value `aboutFields` decodes to. -/
def aboutVal : SubredditAboutData :=
  ⟨42, 7, "public", "Test", "/r/test/", true, false, "desc", "<p>desc</p>",
   false, "t5_abcde", "abcde", "test", "sidebar", "<p>sidebar</p>", -234,
   -262, false, "any", "en", "", "", none, none, 0⟩

/-- A submission object with negative values in every signed field
(`score`, `downs`, `ups`, `created`, `created_utc`). -/
def subFieldsNeg : List (String × Json) :=
  (subFieldsE (.bool false)).map fun p =>
    if p.1 = "score" then (p.1, .num (-5))
    else if p.1 = "downs" then (p.1, .num (-2))
    else if p.1 = "ups" then (p.1, .num (-3))
    else if p.1 = "created" then (p.1, .num (-1000))
    else if p.1 = "created_utc" then (p.1, .num (-1001))
    else p

/-- The value `subFieldsNeg` decodes to. -/
def subValNeg : Submission :=
  ⟨"self.test", none, "test", none, "body", none, none, none, "abc12", 0,
   false, false, "someone", -5, none, false, false, 3, "self", "t5_abcde",
   false, .bool false, none, none, -2, -3, false, none, false, true,
   "/r/test/comments/abc12", false, "t3_abc12", -1000, none, none, false,
   "a title", -1001, none, false, none⟩

/-- A key that serde's derived `Option` handling maps to `None`: the key is
absent from the object, or present with a JSON `null`. -/
def absentOrNull (o : List (String × Json)) (k : String) : Prop :=
  getField o k = none ∨ getField o k = some Json.null

/-- A comment-listing JSON object with an empty page. -/
def emptyCommentListingJson : Json :=
  .obj [("kind", .str "Listing"), ("data", .obj [("children", .arr [])])]

/-- A post-listing JSON object wrapping `listingTwo`. -/
def postListingJson : Json :=
  .obj [("kind", .str "Listing"), ("data", .obj listingTwo)]

/-- A well-formed two-element comment-response array. -/
def pairFix : Json := .arr [postListingJson, emptyCommentListingJson]

/-- The value `pairFix` decodes to. -/
def pairVal : Listing × CommentListing :=
  (⟨"Listing", listingTwoVal⟩, ⟨"Listing", ⟨none, none, none, []⟩⟩)

/-! ### Inversion and congruence lemmas for the decode combinators -/

theorem andThen_ok {x : Except DErr α} {f : α → Except DErr β} {b : β}
    (h : andThen x f = .ok b) : ∃ a, x = .ok a ∧ f a = .ok b := by
  cases x with
  | error e => simp [andThen] at h
  | ok a => exact ⟨a, rfl, h⟩

theorem andThen_error {x : Except DErr α} {f : α → Except DErr β} {e : DErr}
    (h : andThen x f = .error e) :
    x = .error e ∨ ∃ a, x = .ok a ∧ f a = .error e := by
  cases x with
  | error e₂ =>
      left
      simp only [andThen] at h
      injection h with h
      rw [h]
  | ok a => exact Or.inr ⟨a, rfl, h⟩

theorem reqField_ok {o : List (String × Json)} {k : String}
    {dec : Json → Except DErr α} {a : α} (h : reqField o k dec = .ok a) :
    ∃ v, getField o k = some v ∧ dec v = .ok a := by
  unfold reqField at h
  split at h
  · simp at h
  · next v hv => exact ⟨v, hv, h⟩

theorem reqField_isSome {o : List (String × Json)} {k : String}
    {dec : Json → Except DErr α} {a : α} (h : reqField o k dec = .ok a) :
    (getField o k).isSome = true := by
  obtain ⟨v, hv, _⟩ := reqField_ok h
  rw [hv]
  rfl

theorem reqField_congr {o₁ o₂ : List (String × Json)} {k : String}
    (h : getField o₁ k = getField o₂ k) (dec : Json → Except DErr α) :
    reqField o₁ k dec = reqField o₂ k dec := by
  unfold reqField
  rw [h]

theorem optField_congr {o₁ o₂ : List (String × Json)} {k : String}
    (h : getField o₁ k = getField o₂ k) (dec : Json → Except DErr α) :
    optField o₁ k dec = optField o₂ k dec := by
  unfold optField
  rw [h]

theorem optField_none_of {o : List (String × Json)} {k : String}
    {dec : Json → Except DErr α} {r : Option α} (h : optField o k dec = .ok r)
    (hg : getField o k = none ∨ getField o k = some .null) : r = none := by
  unfold optField at h
  rcases hg with hg | hg <;> rw [hg] at h <;> exact (Except.ok.inj h).symm

theorem decodeU64_ok_nonneg {n : Int} {m : Nat}
    (h : decodeU64 (.num n) = .ok m) : 0 ≤ n := by
  simp only [decodeU64] at h
  split at h
  · next hc => exact hc.1
  · simp at h

theorem mapDecode_ok {f : Json → Except DErr α} {l : List Json} {r : List α}
    (h : mapDecode f l = .ok r) :
    r.length = l.length ∧
      ∀ i (hi : i < l.length) (hi₂ : i < r.length),
        f (l.get ⟨i, hi⟩) = .ok (r.get ⟨i, hi₂⟩) := by
  induction l generalizing r with
  | nil =>
      simp only [mapDecode] at h
      injection h with h
      subst h
      exact ⟨rfl, fun i hi _ => absurd hi (Nat.not_lt_zero i)⟩
  | cons x xs ih =>
      simp only [mapDecode] at h
      obtain ⟨y, hy, h⟩ := andThen_ok h
      obtain ⟨ys, hys, h⟩ := andThen_ok h
      injection h with h
      subst h
      obtain ⟨hlen, hidx⟩ := ih hys
      refine ⟨by simp [hlen], ?_⟩
      intro i hi hi₂
      cases i with
      | zero => exact hy
      | succ n =>
          exact hidx n (Nat.lt_of_succ_lt_succ hi) (Nat.lt_of_succ_lt_succ hi₂)

theorem mapDecode_mem_isOk {f : Json → Except DErr α} {l : List Json}
    {r : List α} (h : mapDecode f l = .ok r) :
    ∀ x ∈ l, isOkE (f x) = true := by
  induction l generalizing r with
  | nil => intro x hx; cases hx
  | cons y ys ih =>
      simp only [mapDecode] at h
      obtain ⟨a, ha, h⟩ := andThen_ok h
      obtain ⟨as, has, _⟩ := andThen_ok h
      intro x hx
      rcases List.mem_cons.mp hx with hx | hx
      · rw [hx, ha]
        rfl
      · exact ih has x hx

theorem mapDecode_error {f : Json → Except DErr α} {l : List Json} {e : DErr}
    (h : mapDecode f l = .error e) : ∃ x, x ∈ l ∧ f x = .error e := by
  induction l with
  | nil => simp [mapDecode] at h
  | cons y ys ih =>
      simp only [mapDecode] at h
      rcases andThen_error h with h | ⟨a, _, h⟩
      · exact ⟨y, List.mem_cons_self y ys, h⟩
      · rcases andThen_error h with h | ⟨as, _, h⟩
        · obtain ⟨x, hx, hfx⟩ := ih h
          exact ⟨x, List.mem_cons_of_mem y hx, hfx⟩
        · simp at h

theorem getField_filter_mem {ks : List String} {k : String} (hk : k ∈ ks) :
    ∀ o : List (String × Json),
      getField (o.filter fun p => decide (p.1 ∈ ks)) k = getField o k
  | [] => rfl
  | (k₂, v) :: rest => by
      rw [List.filter_cons]
      by_cases hmem : k₂ ∈ ks
      · rw [if_pos (by simpa using hmem)]
        by_cases hkk : k₂ = k
        · simp only [getField, if_pos hkk]
        · simp only [getField, if_neg hkk]
          exact getField_filter_mem hk rest
      · rw [if_neg (by simpa using hmem)]
        have hkk : ¬ k₂ = k := fun e => hmem (e ▸ hk)
        simp only [getField, if_neg hkk]
        exact getField_filter_mem hk rest

theorem getField_filterKeys {ks : List String} {k : String} (hk : k ∈ ks)
    (o : List (String × Json)) : getField (filterKeys ks o) k = getField o k :=
  getField_filter_mem hk o

theorem decodeBasicThing_ok {T : Type} {decT : Json → Except DErr T}
    {o : List (String × Json)} {d : BasicThing T}
    (h : decodeBasicThing decT (.obj o) = .ok d) :
    reqField o "kind" decodeString = .ok d.kind ∧
      reqField o "data" decT = .ok d.data := by
  simp only [decodeBasicThing] at h
  obtain ⟨kind, h1, h⟩ := andThen_ok h
  obtain ⟨data, h2, h⟩ := andThen_ok h
  injection h with h
  subst h
  exact ⟨h1, h2⟩

theorem decodeListingData_ok {T : Type} {decT : Json → Except DErr T}
    {o : List (String × Json)} {d : ListingData T}
    (h : decodeListingData decT (.obj o) = .ok d) :
    optField o "modhash" decodeString = .ok d.modhash ∧
    optField o "before" decodeString = .ok d.before ∧
    optField o "after" decodeString = .ok d.after ∧
    reqField o "children" (decodeVec (decodeBasicThing decT)) = .ok d.children := by
  simp only [decodeListingData] at h
  obtain ⟨modhash, h1, h⟩ := andThen_ok h
  obtain ⟨before, h2, h⟩ := andThen_ok h
  obtain ⟨after, h3, h⟩ := andThen_ok h
  obtain ⟨children, h4, h⟩ := andThen_ok h
  injection h with h
  subst h
  exact ⟨h1, h2, h3, h4⟩

theorem decodeListingData_congr {T : Type} {decT : Json → Except DErr T}
    {o₁ o₂ : List (String × Json)}
    (H : ∀ k, k ∈ listingKeys → getField o₁ k = getField o₂ k) :
    decodeListingData decT (.obj o₁) = decodeListingData decT (.obj o₂) := by
  simp only [decodeListingData]
  rw [optField_congr (H "modhash" (by decide)) decodeString,
      optField_congr (H "before" (by decide)) decodeString,
      optField_congr (H "after" (by decide)) decodeString,
      reqField_congr (H "children" (by decide)) (decodeVec (decodeBasicThing decT))]

theorem decodeSubredditAboutData_ok {o : List (String × Json)}
    {d : SubredditAboutData} (h : decodeSubredditAboutData (.obj o) = .ok d) :
    reqField o "subscribers" decodeU64 = .ok d.subscribers ∧
    reqField o "accounts_active" decodeU64 = .ok d.accounts_active ∧
    reqField o "subreddit_type" decodeString = .ok d.subreddit_type ∧
    reqField o "title" decodeString = .ok d.title ∧
    reqField o "url" decodeString = .ok d.url ∧
    reqField o "wiki_enabled" decodeBool = .ok d.wiki_enabled ∧
    reqField o "over18" decodeBool = .ok d.over18 ∧
    reqField o "public_description" decodeString = .ok d.public_description ∧
    reqField o "public_description_html" decodeString = .ok d.public_description_html ∧
    reqField o "public_traffic" decodeBool = .ok d.public_traffic ∧
    reqField o "name" decodeString = .ok d.name ∧
    reqField o "id" decodeString = .ok d.id ∧
    reqField o "display_name" decodeString = .ok d.display_name ∧
    reqField o "description" decodeString = .ok d.description ∧
    reqField o "description_html" decodeString = .ok d.description_html ∧
    reqField o "created" decodeI64 = .ok d.created ∧
    reqField o "created_utc" decodeI64 = .ok d.created_utc ∧
    reqField o "quarantine" decodeBool = .ok d.quarantine ∧
    reqField o "submission_type" decodeString = .ok d.submission_type ∧
    reqField o "lang" decodeString = .ok d.lang ∧
    reqField o "submit_text" decodeString = .ok d.submit_text ∧
    reqField o "submit_text_html" decodeString = .ok d.submit_text_html ∧
    optField o "submit_text_label" decodeString = .ok d.submit_text_label ∧
    optField o "submit_link_label" decodeString = .ok d.submit_link_label ∧
    reqField o "comment_score_hide_mins" decodeU64 = .ok d.comment_score_hide_mins := by
  simp only [decodeSubredditAboutData] at h
  obtain ⟨x1, h1, h⟩ := andThen_ok h
  obtain ⟨x2, h2, h⟩ := andThen_ok h
  obtain ⟨x3, h3, h⟩ := andThen_ok h
  obtain ⟨x4, h4, h⟩ := andThen_ok h
  obtain ⟨x5, h5, h⟩ := andThen_ok h
  obtain ⟨x6, h6, h⟩ := andThen_ok h
  obtain ⟨x7, h7, h⟩ := andThen_ok h
  obtain ⟨x8, h8, h⟩ := andThen_ok h
  obtain ⟨x9, h9, h⟩ := andThen_ok h
  obtain ⟨x10, h10, h⟩ := andThen_ok h
  obtain ⟨x11, h11, h⟩ := andThen_ok h
  obtain ⟨x12, h12, h⟩ := andThen_ok h
  obtain ⟨x13, h13, h⟩ := andThen_ok h
  obtain ⟨x14, h14, h⟩ := andThen_ok h
  obtain ⟨x15, h15, h⟩ := andThen_ok h
  obtain ⟨x16, h16, h⟩ := andThen_ok h
  obtain ⟨x17, h17, h⟩ := andThen_ok h
  obtain ⟨x18, h18, h⟩ := andThen_ok h
  obtain ⟨x19, h19, h⟩ := andThen_ok h
  obtain ⟨x20, h20, h⟩ := andThen_ok h
  obtain ⟨x21, h21, h⟩ := andThen_ok h
  obtain ⟨x22, h22, h⟩ := andThen_ok h
  obtain ⟨x23, h23, h⟩ := andThen_ok h
  obtain ⟨x24, h24, h⟩ := andThen_ok h
  obtain ⟨x25, h25, h⟩ := andThen_ok h
  injection h with h
  subst h
  exact ⟨h1, h2, h3, h4, h5, h6, h7, h8, h9, h10, h11, h12, h13, h14, h15,
    h16, h17, h18, h19, h20, h21, h22, h23, h24, h25⟩

theorem decodeSubredditAboutData_congr {o₁ o₂ : List (String × Json)}
    (H : ∀ k, k ∈ aboutKeys → getField o₁ k = getField o₂ k) :
    decodeSubredditAboutData (.obj o₁) = decodeSubredditAboutData (.obj o₂) := by
  simp only [decodeSubredditAboutData]
  rw [reqField_congr (H "subscribers" (by decide)) decodeU64,
      reqField_congr (H "accounts_active" (by decide)) decodeU64,
      reqField_congr (H "subreddit_type" (by decide)) decodeString,
      reqField_congr (H "title" (by decide)) decodeString,
      reqField_congr (H "url" (by decide)) decodeString,
      reqField_congr (H "wiki_enabled" (by decide)) decodeBool,
      reqField_congr (H "over18" (by decide)) decodeBool,
      reqField_congr (H "public_description" (by decide)) decodeString,
      reqField_congr (H "public_description_html" (by decide)) decodeString,
      reqField_congr (H "public_traffic" (by decide)) decodeBool,
      reqField_congr (H "name" (by decide)) decodeString,
      reqField_congr (H "id" (by decide)) decodeString,
      reqField_congr (H "display_name" (by decide)) decodeString,
      reqField_congr (H "description" (by decide)) decodeString,
      reqField_congr (H "description_html" (by decide)) decodeString,
      reqField_congr (H "created" (by decide)) decodeI64,
      reqField_congr (H "created_utc" (by decide)) decodeI64,
      reqField_congr (H "quarantine" (by decide)) decodeBool,
      reqField_congr (H "submission_type" (by decide)) decodeString,
      reqField_congr (H "lang" (by decide)) decodeString,
      reqField_congr (H "submit_text" (by decide)) decodeString,
      reqField_congr (H "submit_text_html" (by decide)) decodeString,
      optField_congr (H "submit_text_label" (by decide)) decodeString,
      optField_congr (H "submit_link_label" (by decide)) decodeString,
      reqField_congr (H "comment_score_hide_mins" (by decide)) decodeU64]

theorem decodeSubmission_ok {o : List (String × Json)} {d : Submission}
    (h : decodeSubmission (.obj o) = .ok d) :
    reqField o "domain" decodeString = .ok d.domain ∧
    optField o "banned_by" decodeString = .ok d.banned_by ∧
    reqField o "subreddit" decodeString = .ok d.subreddit ∧
    optField o "selftext_html" decodeString = .ok d.selftext_html ∧
    reqField o "selftext" decodeString = .ok d.selftext ∧
    optField o "likes" decodeBool = .ok d.likes ∧
    optField o "suggested_sort" decodeString = .ok d.suggested_sort ∧
    optField o "link_flair_text" decodeString = .ok d.link_flair_text ∧
    reqField o "id" decodeString = .ok d.id ∧
    reqField o "gilded" decodeU64 = .ok d.gilded ∧
    reqField o "archived" decodeBool = .ok d.archived ∧
    reqField o "clicked" decodeBool = .ok d.clicked ∧
    reqField o "author" decodeString = .ok d.author ∧
    reqField o "score" decodeI64 = .ok d.score ∧
    optField o "approved_by" decodeString = .ok d.approved_by ∧
    reqField o "over_18" decodeBool = .ok d.over_18 ∧
    reqField o "hidden" decodeBool = .ok d.hidden ∧
    reqField o "num_comments" decodeU64 = .ok d.num_comments ∧
    reqField o "thumbnail" decodeString = .ok d.thumbnail ∧
    reqField o "subreddit_id" decodeString = .ok d.subreddit_id ∧
    reqField o "hide_score" decodeBool = .ok d.hide_score ∧
    reqField o "edited" decodeValue = .ok d.edited ∧
    optField o "link_flair_css_class" decodeString = .ok d.link_flair_css_class ∧
    optField o "author_flair_css_class" decodeString = .ok d.author_flair_css_class ∧
    reqField o "downs" decodeI64 = .ok d.downs ∧
    reqField o "ups" decodeI64 = .ok d.ups ∧
    reqField o "saved" decodeBool = .ok d.saved ∧
    optField o "removal_reason" decodeString = .ok d.removal_reason ∧
    reqField o "stickied" decodeBool = .ok d.stickied ∧
    reqField o "is_self" decodeBool = .ok d.is_self ∧
    reqField o "permalink" decodeString = .ok d.permalink ∧
    reqField o "locked" decodeBool = .ok d.locked ∧
    reqField o "name" decodeString = .ok d.name ∧
    reqField o "created" decodeI64 = .ok d.created ∧
    optField o "url" decodeString = .ok d.url ∧
    optField o "author_flair_text" decodeString = .ok d.author_flair_text ∧
    reqField o "quarantine" decodeBool = .ok d.quarantine ∧
    reqField o "title" decodeString = .ok d.title ∧
    reqField o "created_utc" decodeI64 = .ok d.created_utc ∧
    optField o "distinguished" decodeString = .ok d.distinguished ∧
    reqField o "visited" decodeBool = .ok d.visited ∧
    optField o "num_reports" decodeU64 = .ok d.num_reports := by
  simp only [decodeSubmission] at h
  obtain ⟨x1, h1, h⟩ := andThen_ok h
  obtain ⟨x2, h2, h⟩ := andThen_ok h
  obtain ⟨x3, h3, h⟩ := andThen_ok h
  obtain ⟨x4, h4, h⟩ := andThen_ok h
  obtain ⟨x5, h5, h⟩ := andThen_ok h
  obtain ⟨x6, h6, h⟩ := andThen_ok h
  obtain ⟨x7, h7, h⟩ := andThen_ok h
  obtain ⟨x8, h8, h⟩ := andThen_ok h
  obtain ⟨x9, h9, h⟩ := andThen_ok h
  obtain ⟨x10, h10, h⟩ := andThen_ok h
  obtain ⟨x11, h11, h⟩ := andThen_ok h
  obtain ⟨x12, h12, h⟩ := andThen_ok h
  obtain ⟨x13, h13, h⟩ := andThen_ok h
  obtain ⟨x14, h14, h⟩ := andThen_ok h
  obtain ⟨x15, h15, h⟩ := andThen_ok h
  obtain ⟨x16, h16, h⟩ := andThen_ok h
  obtain ⟨x17, h17, h⟩ := andThen_ok h
  obtain ⟨x18, h18, h⟩ := andThen_ok h
  obtain ⟨x19, h19, h⟩ := andThen_ok h
  obtain ⟨x20, h20, h⟩ := andThen_ok h
  obtain ⟨x21, h21, h⟩ := andThen_ok h
  obtain ⟨x22, h22, h⟩ := andThen_ok h
  obtain ⟨x23, h23, h⟩ := andThen_ok h
  obtain ⟨x24, h24, h⟩ := andThen_ok h
  obtain ⟨x25, h25, h⟩ := andThen_ok h
  obtain ⟨x26, h26, h⟩ := andThen_ok h
  obtain ⟨x27, h27, h⟩ := andThen_ok h
  obtain ⟨x28, h28, h⟩ := andThen_ok h
  obtain ⟨x29, h29, h⟩ := andThen_ok h
  obtain ⟨x30, h30, h⟩ := andThen_ok h
  obtain ⟨x31, h31, h⟩ := andThen_ok h
  obtain ⟨x32, h32, h⟩ := andThen_ok h
  obtain ⟨x33, h33, h⟩ := andThen_ok h
  obtain ⟨x34, h34, h⟩ := andThen_ok h
  obtain ⟨x35, h35, h⟩ := andThen_ok h
  obtain ⟨x36, h36, h⟩ := andThen_ok h
  obtain ⟨x37, h37, h⟩ := andThen_ok h
  obtain ⟨x38, h38, h⟩ := andThen_ok h
  obtain ⟨x39, h39, h⟩ := andThen_ok h
  obtain ⟨x40, h40, h⟩ := andThen_ok h
  obtain ⟨x41, h41, h⟩ := andThen_ok h
  obtain ⟨x42, h42, h⟩ := andThen_ok h
  injection h with h
  subst h
  exact ⟨h1, h2, h3, h4, h5, h6, h7, h8, h9, h10, h11, h12, h13, h14, h15,
    h16, h17, h18, h19, h20, h21, h22, h23, h24, h25, h26, h27, h28, h29,
    h30, h31, h32, h33, h34, h35, h36, h37, h38, h39, h40, h41, h42⟩

theorem decodeSubmission_congr {o₁ o₂ : List (String × Json)}
    (H : ∀ k, k ∈ submissionKeys → getField o₁ k = getField o₂ k) :
    decodeSubmission (.obj o₁) = decodeSubmission (.obj o₂) := by
  simp only [decodeSubmission]
  rw [reqField_congr (H "domain" (by decide)) decodeString,
      optField_congr (H "banned_by" (by decide)) decodeString,
      reqField_congr (H "subreddit" (by decide)) decodeString,
      optField_congr (H "selftext_html" (by decide)) decodeString,
      reqField_congr (H "selftext" (by decide)) decodeString,
      optField_congr (H "likes" (by decide)) decodeBool,
      optField_congr (H "suggested_sort" (by decide)) decodeString,
      optField_congr (H "link_flair_text" (by decide)) decodeString,
      reqField_congr (H "id" (by decide)) decodeString,
      reqField_congr (H "gilded" (by decide)) decodeU64,
      reqField_congr (H "archived" (by decide)) decodeBool,
      reqField_congr (H "clicked" (by decide)) decodeBool,
      reqField_congr (H "author" (by decide)) decodeString,
      reqField_congr (H "score" (by decide)) decodeI64,
      optField_congr (H "approved_by" (by decide)) decodeString,
      reqField_congr (H "over_18" (by decide)) decodeBool,
      reqField_congr (H "hidden" (by decide)) decodeBool,
      reqField_congr (H "num_comments" (by decide)) decodeU64,
      reqField_congr (H "thumbnail" (by decide)) decodeString,
      reqField_congr (H "subreddit_id" (by decide)) decodeString,
      reqField_congr (H "hide_score" (by decide)) decodeBool,
      reqField_congr (H "edited" (by decide)) decodeValue,
      optField_congr (H "link_flair_css_class" (by decide)) decodeString,
      optField_congr (H "author_flair_css_class" (by decide)) decodeString,
      reqField_congr (H "downs" (by decide)) decodeI64,
      reqField_congr (H "ups" (by decide)) decodeI64,
      reqField_congr (H "saved" (by decide)) decodeBool,
      optField_congr (H "removal_reason" (by decide)) decodeString,
      reqField_congr (H "stickied" (by decide)) decodeBool,
      reqField_congr (H "is_self" (by decide)) decodeBool,
      reqField_congr (H "permalink" (by decide)) decodeString,
      reqField_congr (H "locked" (by decide)) decodeBool,
      reqField_congr (H "name" (by decide)) decodeString,
      reqField_congr (H "created" (by decide)) decodeI64,
      optField_congr (H "url" (by decide)) decodeString,
      optField_congr (H "author_flair_text" (by decide)) decodeString,
      reqField_congr (H "quarantine" (by decide)) decodeBool,
      reqField_congr (H "title" (by decide)) decodeString,
      reqField_congr (H "created_utc" (by decide)) decodeI64,
      optField_congr (H "distinguished" (by decide)) decodeString,
      reqField_congr (H "visited" (by decide)) decodeBool,
      optField_congr (H "num_reports" (by decide)) decodeU64]

/-! ### Claims -/

/-- Claim C1, counterexample: a submission whose `edited` value is the JSON
boolean `true` decodes successfully, and the decoded `edited` field is the
raw value `true` — neither of the spec's two variants (`false` or a
number).  The source declares `pub edited: Value`, so callers receive the
raw untyped JSON value, not a two-variant result. -/
theorem edited_not_two_variant_cex :
    decodeSubmission (.obj (subFieldsE (.bool true))) = .ok (subValE (.bool true)) ∧
    editedSpecShape (subValE (.bool true)).edited = false :=
  ⟨rfl, rfl⟩

/-- Claim C1, amended: for every successfully decoded submission, the
`edited` field exposed to callers is exactly the raw JSON value found at
the `edited` key of the input object — a verbatim untyped passthrough, not
a two-variant normalized result. -/
theorem edited_raw_passthrough (o : List (String × Json)) (d : Submission)
    (h : decodeSubmission (.obj o) = .ok d) :
    getField o "edited" = some d.edited := by
  obtain ⟨-, -, -, -, -, -, -, -, -, -, -, -, -, -, -, -, -, -, -, -, -,
    hed, -, -, -, -, -, -, -, -, -, -, -, -, -, -, -, -, -, -, -, -⟩ :=
    decodeSubmission_ok h
  obtain ⟨v, hv, hdec⟩ := reqField_ok hed
  simp only [decodeValue] at hdec
  injection hdec with hdec
  rw [hv, hdec]

/-- Witness for `edited_raw_passthrough` at a concrete decoded
submission. -/
theorem edited_raw_passthrough_witness :
    getField (subFieldsE (.bool true)) "edited" =
      some (subValE (.bool true)).edited :=
  edited_raw_passthrough (subFieldsE (.bool true)) (subValE (.bool true)) rfl

/-- Claim C2, counterexample: a submission whose `edited` value is the JSON
string `"1609459200"` decodes successfully (the claim requires a decode
failure for any value that is neither `false` nor a number).  No
string-shape check happens at decode time: the raw string is stored. -/
theorem edited_string_decodes_cex :
    decodeSubmission (.obj (subFieldsE (.str "1609459200"))) =
      .ok (subValE (.str "1609459200")) ∧
    editedSpecShape (subValE (.str "1609459200")).edited = false :=
  ⟨rfl, rfl⟩

/-- Claim C2, amended: the decoder of the `edited` field is `decodeValue`
(the `serde_json::Value` decode), which accepts every JSON value unchanged
and never fails; in particular a submission object carrying any value at
`edited` — `true`, a numeric string, an object — decodes successfully with
that raw value stored, and no `UnexpectedFieldShape`-style decode error
exists for this field. -/
theorem edited_any_value_decodes (v : Json) :
    decodeValue v = .ok v ∧
    decodeSubmission (.obj (subFieldsE v)) = .ok (subValE v) :=
  ⟨rfl, rfl⟩

/-- Claim C3, counterexample: with the malformed child at index 2 and at
index 1 of two otherwise identical listings, the listing decode fails with
the very same error value — the failing child's own error, unwrapped.  The
error therefore carries no `ChildDecodeFailure` wrapper and no index of the
failing child (it cannot: it does not distinguish the two positions). -/
theorem child_error_no_index_cex :
    decodeListingData decodeSubmission (.obj listingBadAt2) = .error badChildErr ∧
    decodeListingData decodeSubmission (.obj listingBadAt1) = .error badChildErr ∧
    decodeBasicThing decodeSubmission badChild = .error badChildErr :=
  ⟨rfl, rfl, rfl⟩

/-- Claim C3, amended: when any child element of a listing fails to decode,
the decode of the whole listing fails — a successful listing decode
requires every child in the `children` array to decode, so no partial
result is ever returned — and the listing's error at the children stage is
exactly the failing child's own error, propagated unchanged (with no index
attached). -/
theorem listing_child_failure_atomic :
    (∀ (T : Type) (decT : Json → Except DErr T) (o : List (String × Json))
        (d : ListingData T) (elems : List Json),
        decodeListingData decT (.obj o) = .ok d →
        getField o "children" = some (.arr elems) →
        ∀ x ∈ elems, isOkE (decodeBasicThing decT x) = true) ∧
    (∀ (T : Type) (decT : Json → Except DErr T) (elems : List Json) (e : DErr),
        decodeVec (decodeBasicThing decT) (.arr elems) = .error e →
        ∃ x, x ∈ elems ∧ decodeBasicThing decT x = .error e) := by
  constructor
  · intro T decT o d elems h hch x hx
    obtain ⟨-, -, -, hc⟩ := decodeListingData_ok h
    obtain ⟨v, hv, hdec⟩ := reqField_ok hc
    rw [hch] at hv
    injection hv with hv
    subst hv
    simp only [decodeVec] at hdec
    exact mapDecode_mem_isOk hdec x hx
  · intro T decT elems e h
    simp only [decodeVec] at h
    exact mapDecode_error h

/-- Witness for `listing_child_failure_atomic` at a concrete two-child
listing. -/
theorem listing_child_failure_atomic_witness :
    isOkE (decodeBasicThing decodeSubmission goodChild) = true :=
  listing_child_failure_atomic.1 Submission decodeSubmission listingTwo
    listingTwoVal listingTwoChildren rfl rfl goodChild (by simp [listingTwoChildren])

/-- Claim C4: for every listing JSON object that decodes successfully, the
decoded children sequence has exactly one element per element of the source
`children` array, and element `i` of the decoded sequence is the (successful)
decode of element `i` of the JSON array — server order is preserved. -/
theorem listing_order_preserved (T : Type) (decT : Json → Except DErr T)
    (o : List (String × Json)) (d : ListingData T) (elems : List Json)
    (h : decodeListingData decT (.obj o) = .ok d)
    (hch : getField o "children" = some (.arr elems)) :
    d.children.length = elems.length ∧
      ∀ i (hi : i < elems.length) (hi₂ : i < d.children.length),
        decodeBasicThing decT (elems.get ⟨i, hi⟩) = .ok (d.children.get ⟨i, hi₂⟩) := by
  obtain ⟨-, -, -, hc⟩ := decodeListingData_ok h
  obtain ⟨v, hv, hdec⟩ := reqField_ok hc
  rw [hch] at hv
  injection hv with hv
  subst hv
  simp only [decodeVec] at hdec
  exact mapDecode_ok hdec

/-- Witness for `listing_order_preserved` at a concrete two-child
listing. -/
theorem listing_order_preserved_witness :
    listingTwoVal.children.length = listingTwoChildren.length :=
  (listing_order_preserved Submission decodeSubmission listingTwo
    listingTwoVal listingTwoChildren rfl rfl).1

/-- Claim C5: a listing JSON object whose `children` key holds the empty
array and whose `after` key is `null` (and whose other, optional keys
`modhash` and `before` are themselves well-formed, i.e. their `Option`
decode succeeds — an ill-typed `modhash` would fail the decode on its own)
decodes successfully to an empty children sequence with `after = none`;
conversely, a listing JSON object with no `children` key at all never
decodes successfully. -/
theorem listing_empty_children :
    (∀ (T : Type) (decT : Json → Except DErr T) (o : List (String × Json))
        (m b : Option String),
        optField o "modhash" decodeString = .ok m →
        optField o "before" decodeString = .ok b →
        getField o "after" = some Json.null →
        getField o "children" = some (.arr []) →
        decodeListingData decT (.obj o) = .ok ⟨m, b, none, []⟩) ∧
    (∀ (T : Type) (decT : Json → Except DErr T) (o : List (String × Json)),
        getField o "children" = none →
        isOkE (decodeListingData decT (.obj o)) = false) := by
  constructor
  · intro T decT o m b hm hb ha hc
    have h3 : optField o "after" decodeString = .ok none := by
      simp only [optField, ha]
    have h4 : reqField o "children" (decodeVec (decodeBasicThing decT)) =
        .ok ([] : List (BasicThing T)) := by
      simp only [reqField, hc, decodeVec, mapDecode]
    simp only [decodeListingData, hm, hb, h3, h4, andThen]
  · intro T decT o hc
    cases hdec : decodeListingData decT (.obj o) with
    | error e => rfl
    | ok d =>
        obtain ⟨-, -, -, h4⟩ := decodeListingData_ok hdec
        obtain ⟨v, hv, -⟩ := reqField_ok h4
        rw [hc] at hv
        cases hv

/-- Witness for `listing_empty_children`: the empty page decodes, and the
object with no `children` key fails. -/
theorem listing_empty_children_witness :
    decodeListingData decodeSubmission
        (.obj [("after", Json.null), ("children", Json.arr [])]) =
      .ok ⟨none, none, none, []⟩ ∧
    isOkE (decodeListingData decodeSubmission (.obj [])) = false :=
  ⟨listing_empty_children.1 Submission decodeSubmission
      [("after", Json.null), ("children", Json.arr [])] none none rfl rfl rfl rfl,
   listing_empty_children.2 Submission decodeSubmission [] rfl⟩

/-- Claim C6: on a two-element array, the comment-response decode succeeds
exactly when both component listings decode successfully — the composite is
valid precisely when the post listing and the comment listing each decode,
so a value in which only one component decoded is never produced. -/
theorem comment_response_both_components (a b : Json) :
    isOkE (decodeCommentResponse (.arr [a, b])) =
      (isOkE (decodeListing a) && isOkE (decodeCommentListing b)) := by
  simp only [decodeCommentResponse]
  cases ha : decodeListing a with
  | error e => rfl
  | ok x =>
      cases hb : decodeCommentListing b with
      | error e => rfl
      | ok y => rfl

/-- Claim C8: the comment response decodes only from a JSON array of
exactly two elements, the first decoding as the post listing and the second
as the comment listing; any other input shape (an object, an array of
another length) never yields a success. -/
theorem comment_response_shape (j : Json) (p : Listing × CommentListing)
    (h : decodeCommentResponse j = .ok p) :
    match j with
    | .arr [a, b] =>
        decodeListing a = .ok p.1 ∧ decodeCommentListing b = .ok p.2
    | _ => False := by
  unfold decodeCommentResponse at h
  split at h
  · next a b =>
      obtain ⟨x, hx, h⟩ := andThen_ok h
      obtain ⟨y, hy, h⟩ := andThen_ok h
      injection h with h
      subst h
      exact ⟨hx, hy⟩
  · simp at h
  · simp at h

/-- Witness for `comment_response_shape` at a concrete well-formed
two-element response. -/
theorem comment_response_shape_witness :
    decodeListing postListingJson = .ok pairVal.1 ∧
    decodeCommentListing emptyCommentListingJson = .ok pairVal.2 :=
  comment_response_shape pairFix pairVal rfl

/-- Claim C9: decodes of the unsigned counter fields (`subscribers`,
`accounts_active`, `comment_score_hide_mins`, `gilded`, `num_comments`,
and `num_reports` when present) only succeed when the JSON number there is
nonnegative — equivalently, a negative number at any of them fails the
whole decode — while the signed fields `score`, `ups`, `downs`, `created`
and `created_utc` accept negative values, witnessed by full decodes of
fixtures carrying negative numbers in every signed field. -/
theorem unsigned_signed_counters :
    (∀ (o : List (String × Json)) (d : SubredditAboutData) (n : Int),
        decodeSubredditAboutData (.obj o) = .ok d →
        getField o "subscribers" = some (.num n) → 0 ≤ n) ∧
    (∀ (o : List (String × Json)) (d : SubredditAboutData) (n : Int),
        decodeSubredditAboutData (.obj o) = .ok d →
        getField o "accounts_active" = some (.num n) → 0 ≤ n) ∧
    (∀ (o : List (String × Json)) (d : SubredditAboutData) (n : Int),
        decodeSubredditAboutData (.obj o) = .ok d →
        getField o "comment_score_hide_mins" = some (.num n) → 0 ≤ n) ∧
    (∀ (o : List (String × Json)) (d : Submission) (n : Int),
        decodeSubmission (.obj o) = .ok d →
        getField o "gilded" = some (.num n) → 0 ≤ n) ∧
    (∀ (o : List (String × Json)) (d : Submission) (n : Int),
        decodeSubmission (.obj o) = .ok d →
        getField o "num_comments" = some (.num n) → 0 ≤ n) ∧
    (∀ (o : List (String × Json)) (d : Submission) (n : Int),
        decodeSubmission (.obj o) = .ok d →
        getField o "num_reports" = some (.num n) → 0 ≤ n) ∧
    decodeSubmission (.obj subFieldsNeg) = .ok subValNeg ∧
    decodeSubredditAboutData (.obj aboutFields) = .ok aboutVal := by
  refine ⟨?_, ?_, ?_, ?_, ?_, ?_, rfl, rfl⟩
  · intro o d n h hg
    obtain ⟨q, -⟩ := decodeSubredditAboutData_ok h
    obtain ⟨v, hv, hdec⟩ := reqField_ok q
    rw [hg] at hv
    injection hv with hv
    subst hv
    exact decodeU64_ok_nonneg hdec
  · intro o d n h hg
    obtain ⟨-, q, -⟩ := decodeSubredditAboutData_ok h
    obtain ⟨v, hv, hdec⟩ := reqField_ok q
    rw [hg] at hv
    injection hv with hv
    subst hv
    exact decodeU64_ok_nonneg hdec
  · intro o d n h hg
    obtain ⟨-, -, -, -, -, -, -, -, -, -, -, -, -, -, -, -, -, -, -, -, -,
      -, -, -, q⟩ := decodeSubredditAboutData_ok h
    obtain ⟨v, hv, hdec⟩ := reqField_ok q
    rw [hg] at hv
    injection hv with hv
    subst hv
    exact decodeU64_ok_nonneg hdec
  · intro o d n h hg
    obtain ⟨-, -, -, -, -, -, -, -, -, q, -⟩ := decodeSubmission_ok h
    obtain ⟨v, hv, hdec⟩ := reqField_ok q
    rw [hg] at hv
    injection hv with hv
    subst hv
    exact decodeU64_ok_nonneg hdec
  · intro o d n h hg
    obtain ⟨-, -, -, -, -, -, -, -, -, -, -, -, -, -, -, -, -, q, -⟩ :=
      decodeSubmission_ok h
    obtain ⟨v, hv, hdec⟩ := reqField_ok q
    rw [hg] at hv
    injection hv with hv
    subst hv
    exact decodeU64_ok_nonneg hdec
  · intro o d n h hg
    obtain ⟨-, -, -, -, -, -, -, -, -, -, -, -, -, -, -, -, -, -, -, -, -,
      -, -, -, -, -, -, -, -, -, -, -, -, -, -, -, -, -, -, -, -, q⟩ :=
      decodeSubmission_ok h
    simp only [optField, hg] at q
    obtain ⟨a, ha, -⟩ := andThen_ok q
    exact decodeU64_ok_nonneg ha

/-- Witness for `unsigned_signed_counters` at a concrete about-page
decode. -/
theorem unsigned_signed_counters_witness : (0 : Int) ≤ 42 :=
  unsigned_signed_counters.1 aboutFields aboutVal 42 rfl rfl

/-- Claim C10: for each of the three schemas, decoding a JSON object gives
exactly the same result — the same success value or the same failure — as
decoding the object with every key outside the declared schema removed:
unknown keys are ignored (no `deny_unknown_fields`). -/
theorem unknown_keys_ignored :
    (∀ (T : Type) (decT : Json → Except DErr T) (o : List (String × Json)),
        decodeListingData decT (.obj o) =
          decodeListingData decT (.obj (filterKeys listingKeys o))) ∧
    (∀ o : List (String × Json),
        decodeSubmission (.obj o) =
          decodeSubmission (.obj (filterKeys submissionKeys o))) ∧
    (∀ o : List (String × Json),
        decodeSubredditAboutData (.obj o) =
          decodeSubredditAboutData (.obj (filterKeys aboutKeys o))) := by
  refine ⟨?_, ?_, ?_⟩
  · intro T decT o
    exact decodeListingData_congr fun k hk => (getField_filterKeys hk o).symm
  · intro o
    exact decodeSubmission_congr fun k hk => (getField_filterKeys hk o).symm
  · intro o
    exact decodeSubredditAboutData_congr fun k hk => (getField_filterKeys hk o).symm

/-- Claim C7: for every leaf-schema field of `Submission` and
`SubredditAboutData` — a successful decode requires every required
(non-`Option`) field's key to be present in the JSON object (so a missing
required key fails the decode), while every optional (`Option`) field whose
key is absent or `null` decodes to the explicit absent marker `none`, never
to a default value. -/
theorem required_optional_fields :
    (∀ (o : List (String × Json)) (d : Submission),
        decodeSubmission (.obj o) = .ok d →
        (getField o "domain").isSome = true ∧
        (absentOrNull o "banned_by" → d.banned_by = none) ∧
        (getField o "subreddit").isSome = true ∧
        (absentOrNull o "selftext_html" → d.selftext_html = none) ∧
        (getField o "selftext").isSome = true ∧
        (absentOrNull o "likes" → d.likes = none) ∧
        (absentOrNull o "suggested_sort" → d.suggested_sort = none) ∧
        (absentOrNull o "link_flair_text" → d.link_flair_text = none) ∧
        (getField o "id").isSome = true ∧
        (getField o "gilded").isSome = true ∧
        (getField o "archived").isSome = true ∧
        (getField o "clicked").isSome = true ∧
        (getField o "author").isSome = true ∧
        (getField o "score").isSome = true ∧
        (absentOrNull o "approved_by" → d.approved_by = none) ∧
        (getField o "over_18").isSome = true ∧
        (getField o "hidden").isSome = true ∧
        (getField o "num_comments").isSome = true ∧
        (getField o "thumbnail").isSome = true ∧
        (getField o "subreddit_id").isSome = true ∧
        (getField o "hide_score").isSome = true ∧
        (getField o "edited").isSome = true ∧
        (absentOrNull o "link_flair_css_class" → d.link_flair_css_class = none) ∧
        (absentOrNull o "author_flair_css_class" → d.author_flair_css_class = none) ∧
        (getField o "downs").isSome = true ∧
        (getField o "ups").isSome = true ∧
        (getField o "saved").isSome = true ∧
        (absentOrNull o "removal_reason" → d.removal_reason = none) ∧
        (getField o "stickied").isSome = true ∧
        (getField o "is_self").isSome = true ∧
        (getField o "permalink").isSome = true ∧
        (getField o "locked").isSome = true ∧
        (getField o "name").isSome = true ∧
        (getField o "created").isSome = true ∧
        (absentOrNull o "url" → d.url = none) ∧
        (absentOrNull o "author_flair_text" → d.author_flair_text = none) ∧
        (getField o "quarantine").isSome = true ∧
        (getField o "title").isSome = true ∧
        (getField o "created_utc").isSome = true ∧
        (absentOrNull o "distinguished" → d.distinguished = none) ∧
        (getField o "visited").isSome = true ∧
        (absentOrNull o "num_reports" → d.num_reports = none)) ∧
    (∀ (o : List (String × Json)) (d : SubredditAboutData),
        decodeSubredditAboutData (.obj o) = .ok d →
        (getField o "subscribers").isSome = true ∧
        (getField o "accounts_active").isSome = true ∧
        (getField o "subreddit_type").isSome = true ∧
        (getField o "title").isSome = true ∧
        (getField o "url").isSome = true ∧
        (getField o "wiki_enabled").isSome = true ∧
        (getField o "over18").isSome = true ∧
        (getField o "public_description").isSome = true ∧
        (getField o "public_description_html").isSome = true ∧
        (getField o "public_traffic").isSome = true ∧
        (getField o "name").isSome = true ∧
        (getField o "id").isSome = true ∧
        (getField o "display_name").isSome = true ∧
        (getField o "description").isSome = true ∧
        (getField o "description_html").isSome = true ∧
        (getField o "created").isSome = true ∧
        (getField o "created_utc").isSome = true ∧
        (getField o "quarantine").isSome = true ∧
        (getField o "submission_type").isSome = true ∧
        (getField o "lang").isSome = true ∧
        (getField o "submit_text").isSome = true ∧
        (getField o "submit_text_html").isSome = true ∧
        (absentOrNull o "submit_text_label" → d.submit_text_label = none) ∧
        (absentOrNull o "submit_link_label" → d.submit_link_label = none) ∧
        (getField o "comment_score_hide_mins").isSome = true) := by
  constructor
  · intro o d h
    obtain ⟨q1, q2, q3, q4, q5, q6, q7, q8, q9, q10, q11, q12, q13, q14, q15,
      q16, q17, q18, q19, q20, q21, q22, q23, q24, q25, q26, q27, q28, q29,
      q30, q31, q32, q33, q34, q35, q36, q37, q38, q39, q40, q41, q42⟩ :=
      decodeSubmission_ok h
    exact ⟨reqField_isSome q1, fun hg => optField_none_of q2 hg,
      reqField_isSome q3, fun hg => optField_none_of q4 hg,
      reqField_isSome q5, fun hg => optField_none_of q6 hg,
      fun hg => optField_none_of q7 hg, fun hg => optField_none_of q8 hg,
      reqField_isSome q9, reqField_isSome q10, reqField_isSome q11,
      reqField_isSome q12, reqField_isSome q13, reqField_isSome q14,
      fun hg => optField_none_of q15 hg, reqField_isSome q16,
      reqField_isSome q17, reqField_isSome q18, reqField_isSome q19,
      reqField_isSome q20, reqField_isSome q21, reqField_isSome q22,
      fun hg => optField_none_of q23 hg, fun hg => optField_none_of q24 hg,
      reqField_isSome q25, reqField_isSome q26, reqField_isSome q27,
      fun hg => optField_none_of q28 hg, reqField_isSome q29,
      reqField_isSome q30, reqField_isSome q31, reqField_isSome q32,
      reqField_isSome q33, reqField_isSome q34,
      fun hg => optField_none_of q35 hg, fun hg => optField_none_of q36 hg,
      reqField_isSome q37, reqField_isSome q38, reqField_isSome q39,
      fun hg => optField_none_of q40 hg, reqField_isSome q41,
      fun hg => optField_none_of q42 hg⟩
  · intro o d h
    obtain ⟨q1, q2, q3, q4, q5, q6, q7, q8, q9, q10, q11, q12, q13, q14, q15,
      q16, q17, q18, q19, q20, q21, q22, q23, q24, q25⟩ :=
      decodeSubredditAboutData_ok h
    exact ⟨reqField_isSome q1, reqField_isSome q2, reqField_isSome q3,
      reqField_isSome q4, reqField_isSome q5, reqField_isSome q6,
      reqField_isSome q7, reqField_isSome q8, reqField_isSome q9,
      reqField_isSome q10, reqField_isSome q11, reqField_isSome q12,
      reqField_isSome q13, reqField_isSome q14, reqField_isSome q15,
      reqField_isSome q16, reqField_isSome q17, reqField_isSome q18,
      reqField_isSome q19, reqField_isSome q20, reqField_isSome q21,
      reqField_isSome q22, fun hg => optField_none_of q23 hg,
      fun hg => optField_none_of q24 hg, reqField_isSome q25⟩

/-- Witness for `required_optional_fields` at a concrete decoded
submission: the required `domain` key is present and the absent
`banned_by` key decoded to `none`. -/
theorem required_optional_fields_witness :
    (getField (subFieldsE (Json.bool false)) "domain").isSome = true ∧
    (subValE (Json.bool false)).banned_by = none :=
  ⟨(required_optional_fields.1 (subFieldsE (Json.bool false))
      (subValE (Json.bool false)) rfl).1,
   (required_optional_fields.1 (subFieldsE (Json.bool false))
      (subValE (Json.bool false)) rfl).2.1 (Or.inr rfl)⟩

end Rawr
